import Mathlib

/-!
Shallow embedding of `circularity_core.py` (circular-ternary repository).

Real-valued quantities (Python floats) are modelled as exact rationals `ℚ`;
counters (Python ints) as `ℕ`/`ℤ`.  Fallible constructors (dataclass
`__post_init__` raising `ValueError`) are modelled as `Except String`-valued
smart constructors; the raw structures carry the fields.  The pathway
trajectory engine's mutable accumulator variables become an explicit
`EngineState` threaded through recursion over the stage list and over
`List.range stage.cycles` (mirroring `for cycle_num in range(stage.cycles)`);
the Python `break` on an unrecyclable cycle is the early-return branch of
that inner recursion, so it leaves only the current stage's cycle loop.
-/

namespace CircularTernary

/-- The floating-point constant `np.sqrt(3)`, modelled as the exact rational
whose decimal expansion is the printed double value.  It only enters the `y`
coordinates of geometric output; no verified claim depends on its value. -/
def sqrt3 : ℚ := 1.7320508075688772

/-- Source `BurdenMetrics`: container for the three burden dimensions. -/
structure BurdenMetrics where
  cost : ℚ
  environmental : ℚ
  integrity_loss : ℚ
deriving DecidableEq

/-- Source `BurdenMetrics.__post_init__`: validate that all burdens are non-negative
and that integrity loss is at most 1; raising `ValueError` is modelled as
`Except.error` with the message text. -/
def mkBurdenMetrics (cost environmental integrity_loss : ℚ) :
    Except String BurdenMetrics :=
  if cost < 0 ∨ environmental < 0 ∨ integrity_loss < 0 then
    Except.error "All burden values must be non-negative"
  else if integrity_loss > 1 then
    Except.error "Integrity loss must be between 0 and 1"
  else
    Except.ok { cost := cost, environmental := environmental,
                integrity_loss := integrity_loss }

/-- Source `LifecycleStage`: a single stage in the material lifecycle, with the
dataclass's default field values. -/
structure LifecycleStage where
  name : String
  burdens : BurdenMetrics
  duration : ℚ
  mass_fraction : ℚ := 1
  cycles : ℤ := 1
  cost_increase_per_cycle : ℚ := 0
  env_increase_per_cycle : ℚ := 0
  integrity_increase_per_cycle : ℚ := 0
deriving DecidableEq

/-- Source `LifecycleStage.__post_init__`: validates duration, mass fraction and
cycle count, in source order; the three per-cycle increase rates are not
inspected. -/
def mkLifecycleStage (name : String) (burdens : BurdenMetrics)
    (duration : ℚ) (mass_fraction : ℚ) (cycles : ℤ)
    (cost_increase_per_cycle env_increase_per_cycle
      integrity_increase_per_cycle : ℚ) :
    Except String LifecycleStage :=
  if duration < 0 then
    Except.error "Duration must be non-negative"
  else if ¬ (0 < mass_fraction ∧ mass_fraction ≤ 1) then
    Except.error "Mass fraction must be between 0 and 1"
  else if cycles < 1 then
    Except.error "Cycles must be at least 1"
  else
    Except.ok { name := name, burdens := burdens, duration := duration,
                mass_fraction := mass_fraction, cycles := cycles,
                cost_increase_per_cycle := cost_increase_per_cycle,
                env_increase_per_cycle := env_increase_per_cycle,
                integrity_increase_per_cycle := integrity_increase_per_cycle }

/-- Source `Benchmarks`: maximum burden values used for normalization. -/
structure Benchmarks where
  cost_max : ℚ
  environmental_max : ℚ
  integrity_loss_max : ℚ := 1
  cost_unit : String := "$/kg"
  environmental_unit : String := "kg CO2-eq/kg"
  integrity_unit : String := "fraction"
deriving DecidableEq

/-- Source `Benchmarks.normalize`: normalize burden values against benchmarks
(the returned numpy 3-array is modelled as a triple). -/
def Benchmarks.normalize (bm : Benchmarks) (burdens : BurdenMetrics) :
    ℚ × ℚ × ℚ :=
  (burdens.cost / bm.cost_max,
   burdens.environmental / bm.environmental_max,
   burdens.integrity_loss / bm.integrity_loss_max)

/-- Source `Constraints`: optional feasibility bounds, each independently absent. -/
structure Constraints where
  cost_max : Option ℚ := none
  environmental_max : Option ℚ := none
  integrity_min : Option ℚ := none
deriving DecidableEq

/-- The dict returned by `Constraints.check_feasibility`: a key is present
exactly when the corresponding bound is present. -/
structure Feasibility where
  cost : Option Bool
  environmental : Option Bool
  integrity : Option Bool
deriving DecidableEq

/-- Source `Constraints.check_feasibility`: one boolean per present bound. -/
def Constraints.check_feasibility (c : Constraints) (burdens : BurdenMetrics) :
    Feasibility where
  cost := c.cost_max.map fun m => decide (burdens.cost ≤ m)
  environmental := c.environmental_max.map fun m =>
    decide (burdens.environmental ≤ m)
  integrity := c.integrity_min.map fun m =>
    decide (1 - burdens.integrity_loss ≥ m)

/-- Source `feasibility.values()` of the dict, in insertion order
(cost, environmental, integrity). -/
def Feasibility.values (f : Feasibility) : List Bool :=
  f.cost.toList ++ f.environmental.toList ++ f.integrity.toList

/-- Source `Constraints.is_feasible`: `all(feasibility.values()) if feasibility
else True`. -/
def Constraints.is_feasible (c : Constraints) (burdens : BurdenMetrics) :
    Bool :=
  let f := c.check_feasibility burdens
  if f.values.isEmpty then true else f.values.all id

namespace TernaryGeometry

/-- Source `TernaryGeometry.normalize_ternary`: normalize three values to sum to 1,
with the all-zero fallback `(1/3, 1/3, 1/3)`. -/
def normalize_ternary (a b c : ℚ) : ℚ × ℚ × ℚ :=
  let total := a + b + c
  if total = 0 then (1/3, 1/3, 1/3)
  else (a / total, b / total, c / total)

/-- The three coordinate arrays returned by `create_scaled_triangle`. -/
structure Triangle where
  x : List ℚ
  y : List ℚ
  z : List ℚ
deriving DecidableEq

/-- Source `TernaryGeometry.create_scaled_triangle`: an irregular triangle where
each vertex scales independently by its own normalized burden component. -/
def create_scaled_triangle (normalized_burdens : ℚ × ℚ × ℚ)
    (z_height : ℚ) (base_size : ℚ := 1) : Triangle :=
  let vertices_base : List (ℚ × ℚ) :=
    [(0, 0), (1, 0), (1/2, sqrt3 / 2), (0, 0)]
  let scale_factors : List ℚ :=
    [normalized_burdens.1, normalized_burdens.2.1,
     normalized_burdens.2.2, normalized_burdens.1]
  let vertices_scaled :=
    (vertices_base.zip scale_factors).map fun p =>
      (p.1.1 * p.2 * base_size, p.1.2 * p.2 * base_size)
  { x := vertices_scaled.map Prod.fst,
    y := vertices_scaled.map Prod.snd,
    z := vertices_scaled.map fun _ => z_height }

/-- The dict returned by `calculate_trajectory_point` (before the trajectory
engine adds its extra keys). -/
structure GeoPoint where
  x : ℚ
  y : ℚ
  z : ℚ
  normalized_burdens : ℚ × ℚ × ℚ
  total_burden : ℚ
  burden_magnitude : ℚ
deriving DecidableEq

/-- Source `TernaryGeometry.calculate_trajectory_point`: position in ternary space,
with the integrity component multiplied by 10 before ternary normalization. -/
def calculate_trajectory_point (burdens : BurdenMetrics)
    (benchmarks : Benchmarks) (z_height : ℚ) : GeoPoint :=
  let normalized := benchmarks.normalize burdens
  let rel := normalize_ternary burdens.cost burdens.environmental
    (burdens.integrity_loss * 10)
  let a_rel := rel.1
  let b_rel := rel.2.1
  let c_rel := rel.2.2
  let cost_vertex_scaled : ℚ × ℚ := (0 * normalized.1, 0 * normalized.1)
  let env_vertex_scaled : ℚ × ℚ := (1 * normalized.2.1, 0 * normalized.2.1)
  let integrity_vertex_scaled : ℚ × ℚ :=
    (1/2 * normalized.2.2, sqrt3 / 2 * normalized.2.2)
  let x := a_rel * cost_vertex_scaled.1 + b_rel * env_vertex_scaled.1 +
    c_rel * integrity_vertex_scaled.1
  let y := a_rel * cost_vertex_scaled.2 + b_rel * env_vertex_scaled.2 +
    c_rel * integrity_vertex_scaled.2
  let total_burden := burdens.cost + burdens.environmental +
    burdens.integrity_loss
  { x := x, y := y, z := z_height, normalized_burdens := normalized,
    total_burden := total_burden,
    burden_magnitude := 1 / (total_burden + 0.001) }

end TernaryGeometry

/-- The dict returned by `IntegrityModel.calculate_integrity`. -/
structure IntegrityData where
  integrity_loss : ℚ
  remaining_quality : ℚ
  quality_score : ℚ
  grade : String
  grade_name : String
  grade_color : String
  is_recyclable : Bool
  degradation_rate : ℚ
  cycles_processed : ℕ
deriving DecidableEq

namespace IntegrityModel

/-- Source `IntegrityModel.get_material_grade`: classify material into grades by
ascending integrity-loss thresholds. -/
def get_material_grade (integrity_loss : ℚ) : String × String × String :=
  if integrity_loss < 0.15 then ("A", "Virgin-Equivalent", "#2ECC71")
  else if integrity_loss < 0.40 then ("B", "Food-Safe", "#3498DB")
  else if integrity_loss < 0.70 then ("C", "General Packaging", "#F39C12")
  else if integrity_loss < 0.90 then ("D", "Fiber/Textile", "#E74C3C")
  else ("E", "End-of-Life", "#95A5A6")

/-- Source `IntegrityModel.calculate_integrity`: the per-cycle multiplicative decay
recurrence with clamping, grading, and the fixed 10.0 recyclability
threshold on the quality score. -/
def calculate_integrity (current_integrity_loss : ℚ)
    (base_degradation_rate : ℚ) (cycle_num : ℕ) (mass_fraction : ℚ := 1) :
    IntegrityData :=
  let remaining_quality := max 0 (1 - current_integrity_loss)
  let new_remaining_quality :=
    remaining_quality * (1 - base_degradation_rate) * mass_fraction
  let new_integrity_loss := min 1 (max 0 (1 - new_remaining_quality))
  let quality_score := new_remaining_quality * 100
  let g := get_material_grade new_integrity_loss
  { integrity_loss := new_integrity_loss,
    remaining_quality := new_remaining_quality,
    quality_score := quality_score,
    grade := g.1, grade_name := g.2.1, grade_color := g.2.2,
    is_recyclable := decide (quality_score ≥ 10),
    degradation_rate := base_degradation_rate,
    cycles_processed := cycle_num + 1 }

end IntegrityModel

/-- A trajectory point: the geometric dict of
`calculate_trajectory_point` extended with the keys the engine adds. -/
structure TrajectoryPoint where
  x : ℚ
  y : ℚ
  z : ℚ
  normalized_burdens : ℚ × ℚ × ℚ
  total_burden : ℚ
  burden_magnitude : ℚ
  stage_name : String
  cycle_number : ℕ
  cumulative_cost : ℚ
  cumulative_environmental : ℚ
  cumulative_integrity_loss : ℚ
  quality_score : ℚ
  remaining_quality : ℚ
  material_grade : String
  grade_name : String
  grade_color : String
  is_recyclable : Bool
deriving DecidableEq

/-- A triangle wireframe record: the dict of `create_scaled_triangle` with
the `stage_name` key added by the engine. -/
structure TriangleRecord where
  x : List ℚ
  y : List ℚ
  z : List ℚ
  stage_name : String
deriving DecidableEq

/-- One entry of `feasibility_flags`. -/
structure FeasibilityFlag where
  stage : String
  time : ℚ
  feasibility : Feasibility
  is_feasible : Bool
deriving DecidableEq

/-- The `average_burden_rate` dict. -/
structure AverageBurdenRate where
  cost : ℚ
  environmental : ℚ
  integrity : ℚ
deriving DecidableEq

/-- Source `PathwayResult`: all calculated metrics and geometry for a pathway.
The numpy arrays are modelled as lists. -/
structure PathwayResult where
  name : String
  stages : List LifecycleStage
  trajectory_coords : List TrajectoryPoint
  triangle_coords : List TriangleRecord
  cumulative_time : List ℚ
  cumulative_cost : List ℚ
  cumulative_environmental : List ℚ
  cumulative_integrity_loss : List ℚ
  total_duration : ℚ
  total_cycles : ℕ
  average_burden_rate : AverageBurdenRate
  feasibility_flags : List FeasibilityFlag
deriving DecidableEq

/-- The summary dict of `PathwayResult.get_summary_table`. -/
structure SummaryTable where
  total_duration : ℚ
  total_cycles : ℕ
  total_cost : ℚ
  total_environmental : ℚ
  total_integrity_loss : ℚ
  cost_rate : ℚ
  environmental_rate : ℚ
  integrity_loss_rate : ℚ
deriving DecidableEq

/-- Source `PathwayResult.get_summary_table`: the `[-1]` indexing of the three
cumulative arrays is modelled by `List.getLast?`; the Python `IndexError`
on an empty array is the `none` branch. -/
def PathwayResult.get_summary_table (r : PathwayResult) :
    Option SummaryTable :=
  match r.cumulative_cost.getLast?, r.cumulative_environmental.getLast?,
      r.cumulative_integrity_loss.getLast? with
  | some total_cost, some total_env, some total_int =>
    some { total_duration := r.total_duration,
           total_cycles := r.total_cycles,
           total_cost := total_cost,
           total_environmental := total_env,
           total_integrity_loss := total_int,
           cost_rate := r.average_burden_rate.cost,
           environmental_rate := r.average_burden_rate.environmental,
           integrity_loss_rate := r.average_burden_rate.integrity }
  | _, _, _ => none

/-- The mutable accumulator variables of
`CircularityAssessment._calculate_pathway_trajectory`, as one record. -/
structure EngineState where
  trajectory_coords : List TrajectoryPoint
  triangle_coords : List TriangleRecord
  time_points : List ℚ
  cost_cumulative : List ℚ
  env_cumulative : List ℚ
  integrity_cumulative : List ℚ
  feasibility_flags : List FeasibilityFlag
  current_time : ℚ
  current_cost : ℚ
  current_env : ℚ
  current_integrity : ℚ
  total_cycles : ℕ

/-- The engine's accumulators at the start of a pathway computation. -/
def initState : EngineState :=
  { trajectory_coords := [], triangle_coords := [], time_points := [],
    cost_cumulative := [], env_cumulative := [], integrity_cumulative := [],
    feasibility_flags := [], current_time := 0, current_cost := 0,
    current_env := 0, current_integrity := 0, total_cycles := 0 }

/-- The integrity-model call of one loop iteration: the adjusted degradation
rate is the stage's base integrity loss plus the linear per-cycle
escalation, and the stage's mass fraction is the effective mass. -/
def cycleIntegrity (stage : LifecycleStage) (cycle_num : ℕ)
    (current_integrity : ℚ) : IntegrityData :=
  IntegrityModel.calculate_integrity current_integrity
    (stage.burdens.integrity_loss +
      cycle_num * stage.integrity_increase_per_cycle)
    cycle_num stage.mass_fraction

/-- The recording part of one loop iteration (the code after the
recyclability check): build the trajectory point, triangle, cumulative
entries and feasibility flag, and advance the accumulators. -/
def cycleRecord (bm : Benchmarks) (cons : Constraints)
    (stage : LifecycleStage) (cycle_num : ℕ) (s0 : EngineState) :
    EngineState :=
  let effective_mass := stage.mass_fraction
  let stage_time := s0.current_time + stage.duration
  let cycle_cost := stage.burdens.cost +
    cycle_num * stage.cost_increase_per_cycle
  let cycle_env := stage.burdens.environmental +
    cycle_num * stage.env_increase_per_cycle
  let integrity_data := cycleIntegrity stage cycle_num s0.current_integrity
  let cycle_integrity := integrity_data.integrity_loss
  let stage_integrity := cycle_integrity
  let stage_cost := s0.current_cost + cycle_cost * effective_mass
  let stage_env := s0.current_env + cycle_env * effective_mass
  let point_burdens : BurdenMetrics :=
    { cost := cycle_cost, environmental := cycle_env,
      integrity_loss := cycle_integrity }
  let geo := TernaryGeometry.calculate_trajectory_point point_burdens bm
    stage_time
  let stage_name := if stage.cycles > 1 then
      stage.name ++ " (Cycle " ++ toString (cycle_num + 1) ++ ")"
    else stage.name
  let point : TrajectoryPoint :=
    { x := geo.x, y := geo.y, z := geo.z,
      normalized_burdens := geo.normalized_burdens,
      total_burden := geo.total_burden,
      burden_magnitude := geo.burden_magnitude,
      stage_name := stage_name,
      cycle_number := cycle_num + 1,
      cumulative_cost := stage_cost,
      cumulative_environmental := stage_env,
      cumulative_integrity_loss := stage_integrity,
      quality_score := integrity_data.quality_score,
      remaining_quality := integrity_data.remaining_quality,
      material_grade := integrity_data.grade,
      grade_name := integrity_data.grade_name,
      grade_color := integrity_data.grade_color,
      is_recyclable := integrity_data.is_recyclable }
  let degraded_burdens_for_triangle : BurdenMetrics :=
    { cost := cycle_cost, environmental := cycle_env,
      integrity_loss := cycle_integrity }
  let normalized_degraded := bm.normalize degraded_burdens_for_triangle
  let triangle := TernaryGeometry.create_scaled_triangle normalized_degraded
    stage_time
  let triangleRec : TriangleRecord :=
    { x := triangle.x, y := triangle.y, z := triangle.z,
      stage_name := stage_name }
  let feasibility := cons.check_feasibility point_burdens
  let flag : FeasibilityFlag :=
    { stage := stage_name, time := stage_time, feasibility := feasibility,
      is_feasible := if feasibility.values.isEmpty then true
        else feasibility.values.all id }
  { trajectory_coords := s0.trajectory_coords ++ [point],
    triangle_coords := s0.triangle_coords ++ [triangleRec],
    time_points := s0.time_points ++ [stage_time],
    cost_cumulative := s0.cost_cumulative ++ [stage_cost],
    env_cumulative := s0.env_cumulative ++ [stage_env],
    integrity_cumulative := s0.integrity_cumulative ++ [stage_integrity],
    feasibility_flags := s0.feasibility_flags ++ [flag],
    current_time := stage_time,
    current_cost := stage_cost,
    current_env := stage_env,
    current_integrity := stage_integrity,
    total_cycles := s0.total_cycles }

/-- The inner loop `for cycle_num in range(stage.cycles)`: the iteration
first increments `total_cycles`, then runs the integrity model; an
unrecyclable cycle hits the `break`, which returns without recording and
abandons only the remaining iterations of this stage's loop. -/
def runCycles (bm : Benchmarks) (cons : Constraints)
    (stage : LifecycleStage) : List ℕ → EngineState → EngineState
  | [], s => s
  | cycle_num :: rest, s =>
    let s0 := { s with total_cycles := s.total_cycles + 1 }
    let integrity_data := cycleIntegrity stage cycle_num s0.current_integrity
    if integrity_data.is_recyclable = false then s0
    else runCycles bm cons stage rest (cycleRecord bm cons stage cycle_num s0)

/-- One iteration of the outer loop `for stage in stages`. -/
def runStage (bm : Benchmarks) (cons : Constraints) (s : EngineState)
    (stage : LifecycleStage) : EngineState :=
  runCycles bm cons stage (List.range stage.cycles.toNat) s

/-- Source `CircularityAssessment._calculate_pathway_trajectory`: run all stages in
order, then assemble the `PathwayResult`, with the zero-elapsed-time
degenerate case for the average burden rates. -/
def calculate_pathway_trajectory (bm : Benchmarks) (cons : Constraints)
    (name : String) (stages : List LifecycleStage) : PathwayResult :=
  let s := stages.foldl (runStage bm cons) initState
  let rates : AverageBurdenRate :=
    if s.current_time > 0 then
      { cost := s.current_cost / s.current_time,
        environmental := s.current_env / s.current_time,
        integrity := s.current_integrity / s.current_time }
    else { cost := 0, environmental := 0, integrity := 0 }
  { name := name, stages := stages,
    trajectory_coords := s.trajectory_coords,
    triangle_coords := s.triangle_coords,
    cumulative_time := s.time_points,
    cumulative_cost := s.cost_cumulative,
    cumulative_environmental := s.env_cumulative,
    cumulative_integrity_loss := s.integrity_cumulative,
    total_duration := s.current_time,
    total_cycles := s.total_cycles,
    average_burden_rate := rates,
    feasibility_flags := s.feasibility_flags }

/-- Source `CircularityAssessment`: benchmarks, constraints, waste defaults, and
the name-keyed pathway map (modelled as an insertion-ordered association
list, matching Python dict semantics). -/
structure CircularityAssessment where
  benchmarks : Benchmarks
  constraints : Constraints
  waste_management : BurdenMetrics
  pathways : List (String × PathwayResult)

/-- Source `CircularityAssessment.__init__`, with the defaulted constraints and
waste-management burdens. -/
def mkCircularityAssessment (benchmarks : Benchmarks)
    (constraints : Option Constraints := none)
    (waste_management_burdens : Option BurdenMetrics := none) :
    CircularityAssessment :=
  { benchmarks := benchmarks,
    constraints := constraints.getD {},
    waste_management := waste_management_burdens.getD
      { cost := 0.05, environmental := 0.5, integrity_loss := 1 },
    pathways := [] }

/-- Source `self.pathways[name] = result`: dict assignment keeps the position of an
existing key and appends a new one. -/
def setPathway (ps : List (String × PathwayResult)) (name : String)
    (r : PathwayResult) : List (String × PathwayResult) :=
  if ps.any fun p => p.1 = name then
    ps.map fun p => if p.1 = name then (name, r) else p
  else ps ++ [(name, r)]

/-- Source `CircularityAssessment.add_pathway`: raising `ValueError` on an empty
stage list is modelled as `Except.error`; on success the updated assessment
and the computed result are returned. -/
def add_pathway (a : CircularityAssessment) (name : String)
    (stages : List LifecycleStage) :
    Except String (CircularityAssessment × PathwayResult) :=
  if stages.isEmpty then
    Except.error "Pathway must have at least one stage"
  else
    let result := calculate_pathway_trajectory a.benchmarks a.constraints
      name stages
    Except.ok ({ a with pathways := setPathway a.pathways name result },
      result)

/-- The assessment state visible to the caller after an `add_pathway` call:
the Python exception propagates before `self.pathways` is assigned, so on
error the assessment is unchanged. -/
def add_pathway_state (a : CircularityAssessment) (name : String)
    (stages : List LifecycleStage) : CircularityAssessment :=
  match add_pathway a name stages with
  | Except.ok (a', _) => a'
  | Except.error _ => a

/-- Ghost observer of the inner cycle loop: `true` exactly when the loop hit
the unrecyclable-cycle `break`.  It follows `runCycles` branch for branch. -/
def runCyclesBroke (bm : Benchmarks) (cons : Constraints)
    (stage : LifecycleStage) : List ℕ → EngineState → Bool
  | [], _ => false
  | cycle_num :: rest, s =>
    let s0 := { s with total_cycles := s.total_cycles + 1 }
    let integrity_data := cycleIntegrity stage cycle_num s0.current_integrity
    if integrity_data.is_recyclable = false then true
    else runCyclesBroke bm cons stage rest (cycleRecord bm cons stage cycle_num s0)

/-- Ghost observer: did this stage's cycle loop hit the `break`? -/
def stageBroke (bm : Benchmarks) (cons : Constraints) (s : EngineState)
    (stage : LifecycleStage) : Bool :=
  runCyclesBroke bm cons stage (List.range stage.cycles.toNat) s

/-- Ghost observer: the number of stages whose cycle loop hit the `break`
while processing the stage list from state `s`. -/
def stagesBreakCount (bm : Benchmarks) (cons : Constraints) :
    List LifecycleStage → EngineState → ℕ
  | [], _ => 0
  | stage :: rest, s =>
    (if stageBroke bm cons s stage then 1 else 0) +
      stagesBreakCount bm cons rest (runStage bm cons s stage)

/-- The total cycle budget of a stage list, `sum(stage.cycles for stage in
stages)` (with the engine's `range` reading of a cycle count). -/
def sumCycles (stages : List LifecycleStage) : ℕ :=
  (stages.map fun stage => stage.cycles.toNat).sum

/-- All seven per-cycle output sequences of the engine state have the length
of the trajectory list. -/
def EngineState.balanced (s : EngineState) : Prop :=
  s.triangle_coords.length = s.trajectory_coords.length ∧
  s.time_points.length = s.trajectory_coords.length ∧
  s.cost_cumulative.length = s.trajectory_coords.length ∧
  s.env_cumulative.length = s.trajectory_coords.length ∧
  s.integrity_cumulative.length = s.trajectory_coords.length ∧
  s.feasibility_flags.length = s.trajectory_coords.length

/-- Unit benchmarks (all maxima 1), as in spec Example 1. -/
def bmUnit : Benchmarks := { cost_max := 1, environmental_max := 1 }

/-- No constraints: every bound absent. -/
def consNone : Constraints := {}

/-- Source `Constraints(cost_max=0.5)`, as in spec Example 3. -/
def consCostHalf : Constraints := { cost_max := some 0.5 }

/-- A stage whose first cycle degrades the material completely
(`base_degradation_rate = 1.0`), so its first cycle is unrecyclable. -/
def stDeadly : LifecycleStage :=
  { name := "S1",
    burdens := { cost := 0, environmental := 0, integrity_loss := 1 },
    duration := 1 }

/-- A degradation-free single-cycle stage. -/
def stClean2 : LifecycleStage :=
  { name := "S2",
    burdens := { cost := 0, environmental := 0, integrity_loss := 0 },
    duration := 1 }

/-- Another degradation-free single-cycle stage. -/
def stClean3 : LifecycleStage :=
  { name := "S3",
    burdens := { cost := 0, environmental := 0, integrity_loss := 0 },
    duration := 1 }

/-- A degradation-free stage whose per-cycle cost is 1.0, repeated for 3
cycles (spec Example 3 shape). -/
def stCostly : LifecycleStage :=
  { name := "P",
    burdens := { cost := 1, environmental := 0, integrity_loss := 0 },
    duration := 1, cycles := 3 }

lemma cycleRecord_balanced (bm : Benchmarks) (cons : Constraints)
    (stage : LifecycleStage) (cycle_num : ℕ) (s : EngineState)
    (h : s.balanced) : (cycleRecord bm cons stage cycle_num s).balanced := by
  obtain ⟨h1, h2, h3, h4, h5, h6⟩ := h
  simp [EngineState.balanced, cycleRecord, h1, h2, h3, h4, h5, h6]

lemma runCycles_balanced (bm : Benchmarks) (cons : Constraints)
    (stage : LifecycleStage) (l : List ℕ) (s : EngineState)
    (h : s.balanced) : (runCycles bm cons stage l s).balanced := by
  induction l generalizing s with
  | nil => simpa [runCycles] using h
  | cons k rest ih =>
    rw [runCycles]
    have hbump : ({ s with total_cycles := s.total_cycles + 1 } :
        EngineState).balanced := by
      simpa [EngineState.balanced] using h
    split
    · exact hbump
    · exact ih _ (cycleRecord_balanced _ _ _ _ _ hbump)

lemma runStages_balanced (bm : Benchmarks) (cons : Constraints)
    (stages : List LifecycleStage) (s : EngineState) (h : s.balanced) :
    (stages.foldl (runStage bm cons) s).balanced := by
  induction stages generalizing s with
  | nil => simpa using h
  | cons stage rest ih =>
    exact ih _ (runCycles_balanced bm cons stage _ s h)

lemma runCycles_count (bm : Benchmarks) (cons : Constraints)
    (stage : LifecycleStage) (l : List ℕ) (s : EngineState) :
    (runCycles bm cons stage l s).trajectory_coords.length +
      (if runCyclesBroke bm cons stage l s then 1 else 0) + s.total_cycles =
    (runCycles bm cons stage l s).total_cycles +
      s.trajectory_coords.length := by
  induction l generalizing s with
  | nil =>
    simp only [runCycles, runCyclesBroke, if_neg Bool.false_ne_true]
    omega
  | cons k rest ih =>
    rw [runCycles, runCyclesBroke]
    split
    · simp
      omega
    · have h := ih (cycleRecord bm cons stage k
        { s with total_cycles := s.total_cycles + 1 })
      have hlen : (cycleRecord bm cons stage k
          { s with total_cycles := s.total_cycles + 1 }).trajectory_coords.length =
          s.trajectory_coords.length + 1 := by
        simp [cycleRecord]
      have htc : (cycleRecord bm cons stage k
          { s with total_cycles := s.total_cycles + 1 }).total_cycles =
          s.total_cycles + 1 := by
        simp [cycleRecord]
      omega

lemma runCycles_le (bm : Benchmarks) (cons : Constraints)
    (stage : LifecycleStage) (l : List ℕ) (s : EngineState) :
    (runCycles bm cons stage l s).total_cycles ≤ s.total_cycles + l.length := by
  induction l generalizing s with
  | nil => simp [runCycles]
  | cons k rest ih =>
    rw [runCycles]
    split
    · simp
    · have h := ih (cycleRecord bm cons stage k
        { s with total_cycles := s.total_cycles + 1 })
      have htc : (cycleRecord bm cons stage k
          { s with total_cycles := s.total_cycles + 1 }).total_cycles =
          s.total_cycles + 1 := by
        simp [cycleRecord]
      simp only [List.length_cons]
      omega

lemma runCycles_nobreak (bm : Benchmarks) (cons : Constraints)
    (stage : LifecycleStage) (l : List ℕ) (s : EngineState)
    (h : runCyclesBroke bm cons stage l s = false) :
    (runCycles bm cons stage l s).total_cycles = s.total_cycles + l.length := by
  induction l generalizing s with
  | nil => simp [runCycles]
  | cons k rest ih =>
    rw [runCyclesBroke] at h
    rw [runCycles]
    split
    · rename_i hcond
      rw [if_pos hcond] at h
      exact absurd h (by simp)
    · rename_i hcond
      rw [if_neg hcond] at h
      have htc : (cycleRecord bm cons stage k
          { s with total_cycles := s.total_cycles + 1 }).total_cycles =
          s.total_cycles + 1 := by
        simp [cycleRecord]
      have := ih _ h
      simp only [List.length_cons]
      omega

lemma runStages_count (bm : Benchmarks) (cons : Constraints)
    (stages : List LifecycleStage) (s : EngineState) :
    (stages.foldl (runStage bm cons) s).trajectory_coords.length +
      stagesBreakCount bm cons stages s + s.total_cycles =
    (stages.foldl (runStage bm cons) s).total_cycles +
      s.trajectory_coords.length := by
  induction stages generalizing s with
  | nil =>
    simp only [stagesBreakCount, List.foldl_nil]
    omega
  | cons stage rest ih =>
    rw [stagesBreakCount, List.foldl_cons]
    have h1 := runCycles_count bm cons stage
      (List.range stage.cycles.toNat) s
    have h2 := ih (runStage bm cons s stage)
    unfold runStage stageBroke at *
    omega

lemma runStages_le (bm : Benchmarks) (cons : Constraints)
    (stages : List LifecycleStage) (s : EngineState) :
    (stages.foldl (runStage bm cons) s).total_cycles ≤
      s.total_cycles + sumCycles stages := by
  induction stages generalizing s with
  | nil => simp [sumCycles]
  | cons stage rest ih =>
    rw [List.foldl_cons]
    have h1 := runCycles_le bm cons stage (List.range stage.cycles.toNat) s
    have h2 := ih (runStage bm cons s stage)
    unfold runStage at *
    simp only [sumCycles, List.map_cons, List.sum_cons] at *
    simp only [List.length_range] at h1
    omega

lemma runStages_nobreak (bm : Benchmarks) (cons : Constraints)
    (stages : List LifecycleStage) (s : EngineState)
    (h : stagesBreakCount bm cons stages s = 0) :
    (stages.foldl (runStage bm cons) s).total_cycles =
      s.total_cycles + sumCycles stages := by
  induction stages generalizing s with
  | nil => simp [sumCycles]
  | cons stage rest ih =>
    rw [stagesBreakCount] at h
    rw [List.foldl_cons]
    have hb : stageBroke bm cons s stage = false := by
      by_contra hb
      simp [hb] at h
    rw [hb] at h
    simp only [Bool.false_eq_true, if_false, Nat.zero_add] at h
    have h1 := runCycles_nobreak bm cons stage
      (List.range stage.cycles.toNat) s (by simpa [stageBroke] using hb)
    have h3 := ih (runStage bm cons s stage) h
    unfold runStage at *
    simp only [sumCycles, List.map_cons, List.sum_cons] at *
    simp only [List.length_range] at h1
    omega

/-- C4: `calculate_integrity` never decreases integrity loss: for every
`current_integrity_loss ∈ [0,1]`, `base_degradation_rate ≥ 0` and
`mass_fraction ∈ (0,1]`, the returned `integrity_loss` lies in `[0,1]` and
is at least `current_integrity_loss`, so cumulative integrity loss is
non-decreasing across consecutive cycles. -/
theorem calculate_integrity_monotone (current rate mf : ℚ) (cycle_num : ℕ)
    (h0 : 0 ≤ current) (h1 : current ≤ 1) (h2 : 0 ≤ rate)
    (h3 : 0 < mf) (h4 : mf ≤ 1) :
    0 ≤ (IntegrityModel.calculate_integrity current rate cycle_num
      mf).integrity_loss ∧
    (IntegrityModel.calculate_integrity current rate cycle_num
      mf).integrity_loss ≤ 1 ∧
    current ≤ (IntegrityModel.calculate_integrity current rate cycle_num
      mf).integrity_loss := by
  simp only [IntegrityModel.calculate_integrity]
  refine ⟨le_min (by norm_num) (le_max_left _ _), min_le_left _ _, ?_⟩
  have hrem : max 0 (1 - current) = 1 - current := max_eq_right (by linarith)
  rw [hrem]
  refine le_min h1 (le_trans ?_ (le_max_right _ _))
  have e1 : 0 ≤ 1 - current := by linarith
  rcases le_or_lt rate 1 with hr | hr
  · have e3 : (1 - rate) * mf ≤ 1 :=
      mul_le_one₀ (by linarith) h3.le h4
    nlinarith [mul_le_mul_of_nonneg_left e3 e1]
  · nlinarith [mul_nonneg (mul_nonneg e1 (by linarith : (0:ℚ) ≤ rate - 1))
      h3.le]

/-- Witness for C4 at `current = 0.3`, `rate = 0.1`, `mf = 0.9`,
`cycle_num = 2`. -/
theorem calculate_integrity_monotone_witness :
    (0.3 : ℚ) ≤ (IntegrityModel.calculate_integrity 0.3 0.1 2
      0.9).integrity_loss :=
  (calculate_integrity_monotone 0.3 0.1 0.9 2 (by norm_num) (by norm_num)
    (by norm_num) (by norm_num) (by norm_num)).2.2

/-- C5: `get_material_grade` is a total, exclusive partition of `[0,1]`:
on `[0,1]` the grade is A exactly on `[0,0.15)`, B on `[0.15,0.40)`, C on
`[0.40,0.70)`, D on `[0.70,0.90)`, E on `[0.90,1]`, and each boundary value
maps to the higher (worse) grade. -/
theorem get_material_grade_partition (x : ℚ) (h0 : 0 ≤ x) (h1 : x ≤ 1) :
    ((IntegrityModel.get_material_grade x).1 = "A" ↔ 0 ≤ x ∧ x < 0.15) ∧
    ((IntegrityModel.get_material_grade x).1 = "B" ↔ 0.15 ≤ x ∧ x < 0.40) ∧
    ((IntegrityModel.get_material_grade x).1 = "C" ↔ 0.40 ≤ x ∧ x < 0.70) ∧
    ((IntegrityModel.get_material_grade x).1 = "D" ↔ 0.70 ≤ x ∧ x < 0.90) ∧
    ((IntegrityModel.get_material_grade x).1 = "E" ↔ 0.90 ≤ x ∧ x ≤ 1) ∧
    (IntegrityModel.get_material_grade 0.15).1 = "B" ∧
    (IntegrityModel.get_material_grade 0.40).1 = "C" ∧
    (IntegrityModel.get_material_grade 0.70).1 = "D" ∧
    (IntegrityModel.get_material_grade 0.90).1 = "E" := by
  refine ⟨?_, ?_, ?_, ?_, ?_, by norm_num [IntegrityModel.get_material_grade],
    by norm_num [IntegrityModel.get_material_grade],
    by norm_num [IntegrityModel.get_material_grade],
    by norm_num [IntegrityModel.get_material_grade]⟩ <;>
      unfold IntegrityModel.get_material_grade
  · constructor
    · intro h
      split_ifs at h <;> simp_all
    · rintro ⟨-, hx⟩
      rw [if_pos hx]
  · constructor
    · intro h
      split_ifs at h <;> simp_all
    · rintro ⟨hx1, hx2⟩
      rw [if_neg (by linarith), if_pos hx2]
  · constructor
    · intro h
      split_ifs at h <;> simp_all
    · rintro ⟨hx1, hx2⟩
      rw [if_neg (by linarith), if_neg (by linarith), if_pos hx2]
  · constructor
    · intro h
      split_ifs at h <;> simp_all
    · rintro ⟨hx1, hx2⟩
      rw [if_neg (by linarith), if_neg (by linarith), if_neg (by linarith),
        if_pos hx2]
  · constructor
    · intro h
      split_ifs at h <;> simp_all
    · rintro ⟨hx1, -⟩
      rw [if_neg (by linarith), if_neg (by linarith), if_neg (by linarith),
        if_neg (by linarith)]

/-- Witness for C5 at `x = 0.5`. -/
theorem get_material_grade_partition_witness :
    (IntegrityModel.get_material_grade (0.5 : ℚ)).1 = "C" :=
  ((get_material_grade_partition 0.5 (by norm_num) (by norm_num)).2.2.1).mpr
    (by norm_num)

/-- C6: for non-negative inputs with positive sum, `normalize_ternary`
returns the componentwise division by the sum, and the result sums to 1;
for zero sum it returns the `(1/3, 1/3, 1/3)` fallback. -/
theorem normalize_ternary_spec (a b c : ℚ) (ha : 0 ≤ a) (hb : 0 ≤ b)
    (hc : 0 ≤ c) :
    (0 < a + b + c →
      TernaryGeometry.normalize_ternary a b c =
        (a / (a + b + c), b / (a + b + c), c / (a + b + c)) ∧
      (TernaryGeometry.normalize_ternary a b c).1 +
        (TernaryGeometry.normalize_ternary a b c).2.1 +
        (TernaryGeometry.normalize_ternary a b c).2.2 = 1) ∧
    (a + b + c = 0 →
      TernaryGeometry.normalize_ternary a b c = (1/3, 1/3, 1/3)) := by
  constructor
  · intro hpos
    have hne : a + b + c ≠ 0 := ne_of_gt hpos
    constructor
    · simp [TernaryGeometry.normalize_ternary, hne]
    · simp only [TernaryGeometry.normalize_ternary, if_neg hne]
      field_simp
  · intro hzero
    simp [TernaryGeometry.normalize_ternary, hzero]

/-- Witness for C6 at `(a, b, c) = (1, 2, 3)`. -/
theorem normalize_ternary_spec_witness :
    (TernaryGeometry.normalize_ternary 1 2 3).1 +
      (TernaryGeometry.normalize_ternary 1 2 3).2.1 +
      (TernaryGeometry.normalize_ternary 1 2 3).2.2 = 1 :=
  ((normalize_ternary_spec 1 2 3 (by norm_num) (by norm_num)
    (by norm_num)).1 (by norm_num)).2

/-- C7: `add_pathway` with an empty stage list fails with the InvalidInput
error and stores no partial result: the assessment, in particular its
pathways map, is unchanged by the failing call. -/
theorem add_pathway_empty_stages (a : CircularityAssessment)
    (name : String) :
    add_pathway a name [] =
      Except.error "Pathway must have at least one stage" ∧
    add_pathway_state a name [] = a ∧
    (add_pathway_state a name []).pathways = a.pathways := by
  refine ⟨by simp [add_pathway], ?_, ?_⟩ <;>
    simp [add_pathway_state, add_pathway]

/-- C10: `LifecycleStage` construction validates exactly
`duration ≥ 0`, `mass_fraction ∈ (0,1]` and `cycles ≥ 1`; the three
per-cycle increase rates are accepted without validation, so negative
rates still construct successfully. -/
theorem lifecycle_stage_validation (name : String) (burdens : BurdenMetrics)
    (duration mass_fraction : ℚ) (cycles : ℤ) (ci ei ii : ℚ) :
    ((∃ st, mkLifecycleStage name burdens duration mass_fraction cycles
        ci ei ii = Except.ok st) ↔
      (0 ≤ duration ∧ 0 < mass_fraction ∧ mass_fraction ≤ 1 ∧ 1 ≤ cycles)) ∧
    (ci < 0 → ei < 0 → ii < 0 → 0 ≤ duration → 0 < mass_fraction →
      mass_fraction ≤ 1 → 1 ≤ cycles →
      mkLifecycleStage name burdens duration mass_fraction cycles ci ei ii =
        Except.ok ⟨name, burdens, duration, mass_fraction, cycles,
          ci, ei, ii⟩) := by
  constructor
  · constructor
    · rintro ⟨st, hst⟩
      unfold mkLifecycleStage at hst
      split_ifs at hst with hd hm hc
      exact ⟨by linarith, hm.1, hm.2, by omega⟩
    · rintro ⟨h1, h2, h3, h4⟩
      refine ⟨⟨name, burdens, duration, mass_fraction, cycles,
        ci, ei, ii⟩, ?_⟩
      unfold mkLifecycleStage
      rw [if_neg (by linarith), if_neg (by simp [h2, h3]),
        if_neg (by omega)]
  · intro hci hei hii hdur hm1 hm2 hcy
    unfold mkLifecycleStage
    rw [if_neg (by linarith), if_neg (by simp [hm1, hm2]),
      if_neg (by omega)]

/-- Witness for C10: a stage with all three increase rates negative and
valid duration, mass fraction and cycle count constructs successfully. -/
theorem lifecycle_stage_validation_witness :
    mkLifecycleStage "w" ⟨1, 1, 0⟩ 1 1 1 (-1) (-2) (-3) =
      Except.ok ⟨"w", ⟨1, 1, 0⟩, 1, 1, 1, -1, -2, -3⟩ :=
  (lifecycle_stage_validation "w" ⟨1, 1, 0⟩ 1 1 1 (-1) (-2) (-3)).2
    (by norm_num) (by norm_num) (by norm_num) (by norm_num) (by norm_num)
    (by norm_num) (by norm_num)

/-- C1: the code does not stop the entire pathway on an unrecyclable
cycle.  With stages S1 (degradation rate 1.0, one cycle), S2 and S3
(degradation-free, one cycle each), S1's only cycle is unrecyclable, yet
the engine still executes and records S2 and S3: the `break` leaves only
the current stage's cycle loop, so the trajectory has the two points of
the subsequent stages and `total_cycles` also counts the failed cycle. -/
theorem unrecyclable_cycle_breaks_stage_only :
    (calculate_pathway_trajectory bmUnit consNone "Mixed"
      [stDeadly, stClean2, stClean3]).trajectory_coords.length = 2 ∧
    (calculate_pathway_trajectory bmUnit consNone "Mixed"
      [stDeadly, stClean2, stClean3]).total_cycles = 3 ∧
    ((calculate_pathway_trajectory bmUnit consNone "Mixed"
      [stDeadly, stClean2, stClean3]).trajectory_coords.map
        fun p => p.stage_name) = ["S2", "S3"] := by
  norm_num [calculate_pathway_trajectory, runStage, runCycles,
    cycleIntegrity, cycleRecord, IntegrityModel.calculate_integrity,
    IntegrityModel.get_material_grade, initState, stDeadly, stClean2,
    stClean3, bmUnit, consNone, show List.range 1 = [0] from rfl]

/-- C2 (amended): for every pathway computation, the trajectory, triangle
and cumulative-time sequences have equal length, and `total_cycles` equals
that common length plus the number of stages whose cycle loop hit the
unrecyclable-cycle `break` (the failed cycle is counted but not
recorded); with no unrecyclable cycle, `total_cycles` equals the number
of recorded points. -/
theorem pathway_lengths_and_total_cycles (bm : Benchmarks)
    (cons : Constraints) (name : String) (stages : List LifecycleStage) :
    (calculate_pathway_trajectory bm cons name
        stages).trajectory_coords.length =
      (calculate_pathway_trajectory bm cons name
        stages).triangle_coords.length ∧
    (calculate_pathway_trajectory bm cons name
        stages).trajectory_coords.length =
      (calculate_pathway_trajectory bm cons name
        stages).cumulative_time.length ∧
    (calculate_pathway_trajectory bm cons name stages).total_cycles =
      (calculate_pathway_trajectory bm cons name
        stages).trajectory_coords.length +
        stagesBreakCount bm cons stages initState := by
  have hbal := runStages_balanced bm cons stages initState
    (by simp [initState, EngineState.balanced])
  have hcnt := runStages_count bm cons stages initState
  obtain ⟨b1, b2, b3, b4, b5, b6⟩ := hbal
  simp only [calculate_pathway_trajectory]
  have h0 : initState.total_cycles = 0 := rfl
  have h0' : initState.trajectory_coords.length = 0 := rfl
  exact ⟨b1.symm, b2.symm, by omega⟩

/-- Counterexample to C2 as stated: a single stage whose only cycle is
unrecyclable records no trajectory point, yet `total_cycles` is 1 (the
counter is incremented before the recyclability check). -/
theorem trajectory_length_ne_total_cycles :
    (calculate_pathway_trajectory bmUnit consNone "Deadly"
      [stDeadly]).trajectory_coords.length ≠
    (calculate_pathway_trajectory bmUnit consNone "Deadly"
      [stDeadly]).total_cycles := by
  norm_num [calculate_pathway_trajectory, runStage, runCycles,
    cycleIntegrity, IntegrityModel.calculate_integrity,
    IntegrityModel.get_material_grade, initState, stDeadly, bmUnit,
    consNone, show List.range 1 = [0] from rfl]

/-- C3 (amended): `total_cycles` never exceeds the requested cycle budget
`sum(stage.cycles)`, and if no stage's cycle loop hit the
unrecyclable-cycle `break` then it equals the budget.  (The converse
fails: a `break` at the last cycle of a stage preserves equality.) -/
theorem total_cycles_le_budget (bm : Benchmarks) (cons : Constraints)
    (name : String) (stages : List LifecycleStage) :
    (calculate_pathway_trajectory bm cons name stages).total_cycles ≤
      sumCycles stages ∧
    (stagesBreakCount bm cons stages initState = 0 →
      (calculate_pathway_trajectory bm cons name stages).total_cycles =
        sumCycles stages) := by
  have h1 := runStages_le bm cons stages initState
  have h0 : initState.total_cycles = 0 := rfl
  constructor
  · simp only [calculate_pathway_trajectory]
    omega
  · intro hz
    have h2 := runStages_nobreak bm cons stages initState hz
    simp only [calculate_pathway_trajectory]
    omega

/-- Witness for C3 (amended): a degradation-free single-cycle pathway has
no break and reaches its full budget. -/
theorem total_cycles_le_budget_witness :
    (calculate_pathway_trajectory bmUnit consNone "W"
      [stClean2]).total_cycles = sumCycles [stClean2] :=
  (total_cycles_le_budget bmUnit consNone "W" [stClean2]).2
    (by norm_num [stagesBreakCount, stageBroke, runCyclesBroke, runStage,
      runCycles, cycleIntegrity, cycleRecord,
      IntegrityModel.calculate_integrity,
      IntegrityModel.get_material_grade, initState, stClean2, bmUnit,
      consNone, show List.range 1 = [0] from rfl])

/-- Counterexample to C3's "equality iff no truncation": the single
deadly stage truncates (its only cycle is unrecyclable), yet
`total_cycles = 1 = sum(stage.cycles)` because the failed cycle was
counted, so equality does not imply absence of truncation. -/
theorem truncation_can_preserve_cycle_budget :
    ¬(((calculate_pathway_trajectory bmUnit consNone "Deadly"
        [stDeadly]).total_cycles = sumCycles [stDeadly]) →
      stagesBreakCount bmUnit consNone [stDeadly] initState = 0) := by
  intro h
  have h2 := h (by norm_num [calculate_pathway_trajectory, runStage,
    runCycles, cycleIntegrity, IntegrityModel.calculate_integrity,
    IntegrityModel.get_material_grade, initState, stDeadly, bmUnit,
    consNone, sumCycles, show List.range 1 = [0] from rfl])
  norm_num [stagesBreakCount, stageBroke, runCyclesBroke, runStage,
    runCycles, cycleIntegrity, IntegrityModel.calculate_integrity,
    IntegrityModel.get_material_grade, initState, stDeadly, bmUnit,
    consNone, show List.range 1 = [0] from rfl] at h2

/-- C8: `is_feasible` is true exactly when every present bound is
satisfied (and true when no bound is present), and with
`Constraints(cost_max=0.5)` and a stage of per-cycle cost 1.0 every
recorded feasibility flag has `is_feasible = false` with the cost check
recorded as failed. -/
theorem is_feasible_characterization :
    (∀ (c : Constraints) (b : BurdenMetrics),
      c.is_feasible b = true ↔
        ((∀ m, c.cost_max = some m → b.cost ≤ m) ∧
         (∀ m, c.environmental_max = some m → b.environmental ≤ m) ∧
         (∀ m, c.integrity_min = some m → m ≤ 1 - b.integrity_loss))) ∧
    (∀ b : BurdenMetrics, consNone.is_feasible b = true) ∧
    (calculate_pathway_trajectory bmUnit consCostHalf "P"
      [stCostly]).feasibility_flags.length = 3 ∧
    (∀ fl ∈ (calculate_pathway_trajectory bmUnit consCostHalf "P"
        [stCostly]).feasibility_flags,
      fl.is_feasible = false ∧ fl.feasibility.cost = some false) := by
  refine ⟨?_, ?_, ?_, ?_⟩
  · rintro ⟨cm, em, im⟩ b
    unfold Constraints.is_feasible Constraints.check_feasibility
      Feasibility.values
    rcases cm with _ | m1 <;> rcases em with _ | m2 <;>
      rcases im with _ | m3 <;> simp [ge_iff_le, and_assoc]
  · intro b
    simp [consNone, Constraints.is_feasible, Constraints.check_feasibility,
      Feasibility.values]
  · norm_num [calculate_pathway_trajectory, runStage, runCycles,
      cycleIntegrity, cycleRecord, IntegrityModel.calculate_integrity,
      IntegrityModel.get_material_grade, Constraints.check_feasibility,
      Feasibility.values, initState, stCostly, bmUnit, consCostHalf,
      show List.range 3 = [0, 1, 2] from rfl]
  · norm_num [calculate_pathway_trajectory, runStage, runCycles,
      cycleIntegrity, cycleRecord, IntegrityModel.calculate_integrity,
      IntegrityModel.get_material_grade, Constraints.check_feasibility,
      Feasibility.values, initState, stCostly, bmUnit, consCostHalf,
      show List.range 3 = [0, 1, 2] from rfl]

/-- The partiality of `get_summary_table` is decided by emptiness of the
parallel cumulative arrays. -/
lemma get_summary_isSome (r : PathwayResult)
    (h1 : r.cumulative_cost.length = r.trajectory_coords.length)
    (h2 : r.cumulative_environmental.length = r.trajectory_coords.length)
    (h3 : r.cumulative_integrity_loss.length = r.trajectory_coords.length) :
    (r.get_summary_table.isSome = true ↔ r.trajectory_coords ≠ []) := by
  by_cases htraj : r.trajectory_coords = []
  · have e1 : r.cumulative_cost = [] :=
      List.length_eq_zero.mp (by rw [h1, htraj]; rfl)
    simp [PathwayResult.get_summary_table, e1, htraj]
  · have hlen : 0 < r.trajectory_coords.length := List.length_pos.mpr htraj
    have e1 : r.cumulative_cost ≠ [] := by
      intro e; rw [e] at h1; simp at h1; omega
    have e2 : r.cumulative_environmental ≠ [] := by
      intro e; rw [e] at h2; simp at h2; omega
    have e3 : r.cumulative_integrity_loss ≠ [] := by
      intro e; rw [e] at h3; simp at h3; omega
    obtain ⟨v1, hv1⟩ :=
      Option.isSome_iff_exists.mp (List.getLast?_isSome.mpr e1)
    obtain ⟨v2, hv2⟩ :=
      Option.isSome_iff_exists.mp (List.getLast?_isSome.mpr e2)
    obtain ⟨v3, hv3⟩ :=
      Option.isSome_iff_exists.mp (List.getLast?_isSome.mpr e3)
    simp [PathwayResult.get_summary_table, hv1, hv2, hv3, htraj]

/-- C9: a pathway's summary record exists exactly when at least one
trajectory point was recorded: `get_summary_table` indexes the last entry
of the cumulative arrays, which fails (is `none`) precisely on an empty
trajectory, as for a pathway whose every stage fails at its first
cycle. -/
theorem summary_table_defined_iff_point_recorded :
    (∀ (bm : Benchmarks) (cons : Constraints) (name : String)
        (stages : List LifecycleStage),
      ((calculate_pathway_trajectory bm cons name
          stages).get_summary_table.isSome = true ↔
        (calculate_pathway_trajectory bm cons name
          stages).trajectory_coords ≠ [])) ∧
    (calculate_pathway_trajectory bmUnit consNone "Deadly"
      [stDeadly]).get_summary_table = none := by
  constructor
  · intro bm cons name stages
    have hbal := runStages_balanced bm cons stages initState
      (by simp [initState, EngineState.balanced])
    obtain ⟨b1, b2, b3, b4, b5, b6⟩ := hbal
    apply get_summary_isSome <;> simp only [calculate_pathway_trajectory]
    · exact b3
    · exact b4
    · exact b5
  · norm_num [calculate_pathway_trajectory, runStage, runCycles,
      cycleIntegrity, IntegrityModel.calculate_integrity,
      IntegrityModel.get_material_grade, initState, stDeadly, bmUnit,
      consNone, PathwayResult.get_summary_table,
      show List.range 1 = [0] from rfl]

end CircularTernary
